import Mathlib

/-!
Verification of the dsmrd daemon: a bridge from a serial DSMR smart-meter
device to network consumers. The development shallowly embeds the data
model and operations of the Rust sources (`appdata.rs`, `reader.rs`,
`endpoints.rs`, `udp_sender.rs`) and settles the specification's claims
about lifecycle transitions, the client registry, the control-plane
surface and the UDP fan-out loop.

Conventions of the embedding:
- a decoded DSMR reading (`dsmr5::state::State`) is opaque to the daemon
  beyond being serializable; it is modelled as a `Nat`, with `0` for the
  default (pre-sample) state;
- acquiring a `Mutex`/`RwLock` either succeeds or is poisoned; each
  operation that touches a lock takes a `Bool` saying whether the
  acquisition succeeds, and an operation that calls `.expect` on the
  acquisition result is modelled as returning a `panicked` outcome on
  the failing branch;
- panics are values of an explicit outcome type, never Lean failures.
-/

namespace Dsmrd

/-- `reader.rs`: `ThreadStatus` — the sampler lifecycle status. -/
inductive ThreadStatus where
  | Running
  | Failed
  | Stopping
  | Stopped
deriving DecidableEq, Repr

/-- The decoded reading (`dsmr5::state::State`), opaque payload. -/
abbrev DsmrState := Nat

/-- `reader.rs`: `ReaderData`, the shared state behind the lock. The source
also stores an mpsc stop channel that no code path reads from the logic's
point of view; it is omitted. `thread_handle` is the optional handle to the
running sampler that `endpoints.rs::start_thread` inspects. -/
structure ReaderData where
  dsmr_state : DsmrState
  thread_status : ThreadStatus
  thread_handle : Option Unit
deriving DecidableEq, Repr

/-- The initial shared state: default reading, `Stopped`, no sampler. -/
def ReaderData.init : ReaderData :=
  { dsmr_state := 0, thread_status := ThreadStatus.Stopped, thread_handle := none }

/-- A network endpoint (`std::net::SocketAddr`), kept abstract as an
ip string plus a port. -/
structure SocketAddr where
  ip : String
  port : Nat
deriving DecidableEq, Repr

/-- `SocketAddr::to_string()`. -/
def SocketAddr.toDisplay (a : SocketAddr) : String :=
  a.ip ++ ":" ++ toString a.port

/-- Outcome of a control-plane invocation: either a value returned to the
transport layer, or a panic raised by an `.expect` on a lock. -/
inductive CtrlOutcome (α : Type) where
  | ret (a : α)
  | panicked (msg : String)
deriving DecidableEq, Repr

/-- HTTP status codes used by `endpoints.rs`. -/
inductive HttpStatusCode where
  | ok
  | internalServerError
deriving DecidableEq, Repr

/-- An HTTP response body as built by `endpoints.rs`. -/
structure HttpResponse where
  status : HttpStatusCode
  body : String
deriving DecidableEq, Repr

def errAlreadyRegistered : String := "Client already registered!"

def errRegisterLock : String := "Unable to register client!"

def errUnregisterLock : String := "Unable to unregister client!"

def errListLock : String := "Error reading register: poisoned"

def panicStopLock : String := "Unable to write to RwLock..."

def panicReadLock : String := "Failed to read RwLock..."

namespace AppData

/-- `appdata.rs`: `AppData::register_client`. Takes the write lock on the
client register; on a poisoned lock reports an error; rejects an address
already present, otherwise pushes it. -/
def register_client (lockOk : Bool) (reg : List SocketAddr) (a : SocketAddr) :
    Except String (List SocketAddr) :=
  if lockOk then
    if reg.contains a then Except.error errAlreadyRegistered
    else Except.ok (reg ++ [a])
  else Except.error errRegisterLock

/-- `appdata.rs`: `AppData::unregister_client`. Takes the write lock; on a
poisoned lock reports an error; otherwise retains every address different
from the argument. -/
def unregister_client (lockOk : Bool) (reg : List SocketAddr) (a : SocketAddr) :
    Except String (List SocketAddr) :=
  if lockOk then Except.ok (reg.filter (fun x => decide (x ≠ a)))
  else Except.error errUnregisterLock

/-- `appdata.rs`: `AppData::list_clients`. Takes the read lock; on a
poisoned lock reports an error; otherwise maps `to_string` over the
register. -/
def list_clients (lockOk : Bool) (reg : List SocketAddr) :
    Except String (List String) :=
  if lockOk then Except.ok (reg.map SocketAddr.toDisplay)
  else Except.error errListLock

end AppData

/-- One call against the client registry. -/
inductive RegCall where
  | register (a : SocketAddr)
  | unregister (a : SocketAddr)

/-- Apply one registry call to the register, with the lock available; a
rejected `register` leaves the register unchanged (`register_client`
returns before mutating). -/
def applyCall (reg : List SocketAddr) : RegCall → List SocketAddr
  | RegCall.register a =>
    match AppData.register_client true reg a with
    | Except.ok r => r
    | Except.error _ => reg
  | RegCall.unregister a =>
    match AppData.unregister_client true reg a with
    | Except.ok r => r
    | Except.error _ => reg

/-- Run a sequence of registry calls from the empty register. -/
def runCalls (calls : List RegCall) : List SocketAddr :=
  List.foldl applyCall [] calls

/-- The set-theoretic semantics of one registry call. -/
def applySetCall (s : Finset SocketAddr) : RegCall → Finset SocketAddr
  | RegCall.register a => insert a s
  | RegCall.unregister a => s.erase a

/-- Run a sequence of registry calls as set operations from the empty set. -/
def runSetCalls (calls : List RegCall) : Finset SocketAddr :=
  List.foldl applySetCall ∅ calls

/-- What one attempt of `reader_get_value` observes from the serial port,
abstracting the byte stream and the external `dsmr5` decoder:
- `ioError`: some byte read fails (`b.expect("Failed to map reader.")`);
- `noData`: the dsmr5 reader yields nothing
  (`reader.next().expect("No reader data present.")`);
- `badTelegram`: `to_telegram()` returns `Err`;
- `badState`: `dsmr5::Result::<State>::from(&data)` returns `Err`;
- `good s`: a reading `s` was decoded. -/
inductive PortOutcome where
  | ioError
  | noData
  | badTelegram
  | badState
  | good (s : DsmrState)
deriving DecidableEq, Repr

def panicByteRead : String := "Failed to map reader."

def panicNoReaderData : String := "No reader data present."

/-- Result of `reader.rs::reader_get_value`, with the `.expect` calls made
explicit as panics. -/
inductive GetValueResult where
  | panic (msg : String)
  | err
  | ok (s : DsmrState)
deriving DecidableEq, Repr

/-- `reader.rs`: `reader_get_value`. Byte-level IO failures and an empty
reader panic through `.expect`; telegram and state decode failures return
`Err`; otherwise the decoded state is returned. -/
def reader_get_value : PortOutcome → GetValueResult
  | PortOutcome.ioError => GetValueResult.panic panicByteRead
  | PortOutcome.noData => GetValueResult.panic panicNoReaderData
  | PortOutcome.badTelegram => GetValueResult.err
  | PortOutcome.badState => GetValueResult.err
  | PortOutcome.good s => GetValueResult.ok s

/-- What one iteration of the sampler loop decides to do next. A `panicked`
outcome unwinds only the sampler thread; the process keeps running. -/
inductive LoopCtl where
  | continueLoop
  | breakLoop
  | panicked (msg : String)
deriving DecidableEq, Repr

/-- One iteration of the sampler loop in `reader.rs::spawn_dsmr_thread`
(lines 52-72): on a decoded reading, store it under the lock and, if a stop
was requested (`Stopping`), acknowledge with `Stopped` and break; on a
decode `Err`, set `Failed` and break; a panic inside `reader_get_value`
unwinds before the lock is taken, leaving the shared state untouched. -/
def samplerCycle (o : PortOutcome) (rd : ReaderData) : ReaderData × LoopCtl :=
  match reader_get_value o with
  | GetValueResult.ok s =>
    let rd1 := { rd with dsmr_state := s }
    if rd1.thread_status = ThreadStatus.Stopping then
      ({ rd1 with thread_status := ThreadStatus.Stopped }, LoopCtl.breakLoop)
    else
      (rd1, LoopCtl.continueLoop)
  | GetValueResult.err =>
    ({ rd with thread_status := ThreadStatus.Failed }, LoopCtl.breakLoop)
  | GetValueResult.panic m => (rd, LoopCtl.panicked m)

/-- Whether `thread::Builder::spawn` succeeded. -/
inductive SpawnResult where
  | ok
  | err (msg : String)
deriving DecidableEq, Repr

def errSpawn : String := "spawn failed"

/-- `reader.rs::spawn_dsmr_thread`, lines 76-91: after attempting to spawn
the thread, set the status to `Running` on success and to `Failed` on
failure, propagating the spawn error. Attaching the handle on success is
modelled from the spec: the revision of `spawn_dsmr_thread` that
`endpoints.rs` calls (taking `AppData` and a `ReaderData` with a
`thread_handle` field) is not under `src/`; the spec says `start()`
"spawns a new SamplerTask ... attaches its handle to SharedState". -/
def spawn_dsmr_thread (sp : SpawnResult) (rd : ReaderData) :
    ReaderData × Except String Unit :=
  match sp with
  | SpawnResult.ok =>
    ({ rd with thread_status := ThreadStatus.Running, thread_handle := some () },
      Except.ok ())
  | SpawnResult.err e =>
    ({ rd with thread_status := ThreadStatus.Failed }, Except.error e)

def bodyStartOk : String := "New DSMR reader thread started."

def bodyStartExisting : String := "Error: existing DMSR reader thread found."

def bodyStartFailedPrefix : String := "Error: failed to start DSMR reader thread.\n"

def bodyStopOk : String := "DMSR reader thread stopped."

/-- `endpoints.rs::start_thread` (lines 67-103): reject when an existing
thread handle is present, otherwise spawn the sampler and report the spawn
outcome. -/
def start_thread (sp : SpawnResult) (rd : ReaderData) : ReaderData × HttpResponse :=
  if rd.thread_handle.isSome then
    (rd, { status := HttpStatusCode.internalServerError, body := bodyStartExisting })
  else
    match spawn_dsmr_thread sp rd with
    | (rd1, Except.ok _) =>
      (rd1, { status := HttpStatusCode.ok, body := bodyStartOk })
    | (rd1, Except.error e) =>
      (rd1, { status := HttpStatusCode.internalServerError,
              body := bodyStartFailedPrefix ++ e })

/-- `endpoints.rs::stop_thread` (lines 105-117): `.expect` on the write
lock (panics when poisoned), then unconditionally set the status to
`Stopping` and answer 200. -/
def stop_thread (lockOk : Bool) (rd : ReaderData) :
    CtrlOutcome (ReaderData × HttpResponse) :=
  if lockOk then
    CtrlOutcome.ret ({ rd with thread_status := ThreadStatus.Stopping },
      { status := HttpStatusCode.ok, body := bodyStopOk })
  else CtrlOutcome.panicked panicStopLock

/-- Serialization of the DSMR state (`serde_json::to_string`); the source
notes it always succeeds, worst case on the default null-frame. -/
def serializeState (s : DsmrState) : String := toString s

/-- `endpoints.rs::get_state`: `.expect` on the read lock (panics when
poisoned), then serialize the stored state. -/
def get_state (lockOk : Bool) (rd : ReaderData) : CtrlOutcome HttpResponse :=
  if lockOk then
    CtrlOutcome.ret { status := HttpStatusCode.ok, body := serializeState rd.dsmr_state }
  else CtrlOutcome.panicked panicReadLock

def listHeader : String := "Currently registered clients are\n"

def errListBodyPrefix : String := "Error: failed to provide client register. "

/-- `endpoints.rs::list_clients` (lines 119-137): format the register.
`response_string.extend(res)` appends each entry string to the header with
no separator between entries, mirrored here by `String.join`. -/
def list_clients (lockOk : Bool) (reg : List SocketAddr) : HttpResponse :=
  match AppData.list_clients lockOk reg with
  | Except.ok res =>
    { status := HttpStatusCode.ok, body := listHeader ++ String.join res }
  | Except.error e =>
    { status := HttpStatusCode.internalServerError, body := errListBodyPrefix ++ e }

/-- What the fan-out loop does after one cycle. The outer `loop` in
`udp_sender.rs` has no break, so every path re-enters the wait. -/
inductive FanoutNext where
  | continueLoop
deriving DecidableEq, Repr

/-- Inputs of one woken cycle of `udp_sender.rs::spawn_udp_sender`:
whether the two `RwLock` reads succeed, the snapshotted reading, whether
`serde_json::to_vec` succeeds on it, the snapshotted register, and the
outcome (`Ok` or `Err` of `send_to`) of each attempted datagram. -/
structure FanoutCycleInput where
  readerLockOk : Bool
  registryLockOk : Bool
  reading : DsmrState
  serOk : Bool
  addrs : List SocketAddr
  sendResult : SocketAddr → Bool

/-- The `for addr in addresses.iter()` send loop of `udp_sender.rs`: one
attempt per address in order; an `Err` from `send_to` only skips the debug
log and never stops the iteration. Returns each attempt with its outcome. -/
def send_loop (sendResult : SocketAddr → Bool) : List SocketAddr → List (SocketAddr × Bool)
  | [] => []
  | a :: rest => (a, sendResult a) :: send_loop sendResult rest

/-- `serde_json::to_vec(&dsmr_data.dsmr_state)`, abstracted to its
success/failure and an opaque payload. -/
def serializeVec (serOk : Bool) (s : DsmrState) : Option String :=
  if serOk then some (serializeState s) else none

/-- One woken cycle of `udp_sender.rs::spawn_udp_sender` (lines 31-50):
a failed lock read hits a `let ... else continue`; a failed serialization
skips the `if let Ok(ser_data)` block; otherwise every snapshotted address
gets one send attempt. Every path continues the loop. -/
def fanout_cycle (inp : FanoutCycleInput) : List (SocketAddr × Bool) × FanoutNext :=
  if inp.readerLockOk then
    if inp.registryLockOk then
      match serializeVec inp.serOk inp.reading with
      | some _ => (send_loop inp.sendResult inp.addrs, FanoutNext.continueLoop)
      | none => ([], FanoutNext.continueLoop)
    else ([], FanoutNext.continueLoop)
  else ([], FanoutNext.continueLoop)

/-- State of the write-then-signal protocol between the sampler and the
event listeners: the append-only history of readings written into the
shared state (the current reading is the last one), the number of
notifications emitted on the `event_listener::Event`
(`AppData::emit_event`, `appdata.rs` lines 29-31), and whether a reading
has been stored whose notification is still to come. -/
structure EventState where
  readings : List DsmrState
  signals : Nat
  pending : Bool
deriving DecidableEq, Repr

def EventState.start : EventState := { readings := [], signals := 0, pending := false }

/-- The latest reading a waiter snapshots from the shared state (default
state when nothing was sampled yet). -/
def snapshot_reading (s : EventState) : DsmrState := s.readings.getLastD 0

/-- Modelled from the spec: the sampler revision called by `endpoints.rs`
(which takes `AppData` and signals the `EventSignal`) is not under `src/`;
the spec fixes its order as "write the reading into SharedState; signal
EventSignal". Each successful cycle is therefore two sub-steps: `store`
appends the decoded reading to the history, then `emit` fires the
notification. Interleaved waiters only ever see states of this relation. -/
inductive SamplerEvent : EventState → EventState → Prop
  | store (r : DsmrState) (s : EventState) (h : s.pending = false) :
      SamplerEvent s { readings := s.readings ++ [r], signals := s.signals, pending := true }
  | emit (s : EventState) (h : s.pending = true) :
      SamplerEvent s { readings := s.readings, signals := s.signals + 1, pending := false }

/-- Event states reachable from the initial state. -/
def EventReachable (s : EventState) : Prop :=
  Relation.ReflTransGen SamplerEvent EventState.start s

/-- Joint system step on the shared state, tying together the embedded
control-plane operations and the sampler loop: a `stop` request
(`stop_thread` with the lock available), one sampler iteration
(`samplerCycle` under any port outcome), or a `start` request
(`start_thread` under any spawn outcome). -/
inductive SysStep : ReaderData → ReaderData → Prop
  | ctrlStop (rd rd1 : ReaderData) (resp : HttpResponse)
      (h : stop_thread true rd = CtrlOutcome.ret (rd1, resp)) : SysStep rd rd1
  | sampler (o : PortOutcome) (rd rd1 : ReaderData) (c : LoopCtl)
      (h : samplerCycle o rd = (rd1, c)) : SysStep rd rd1
  | ctrlStart (sp : SpawnResult) (rd rd1 : ReaderData) (resp : HttpResponse)
      (h : start_thread sp rd = (rd1, resp)) : SysStep rd rd1

/-- An infinite observation of the shared state in which each instant
either stutters or performs one `SysStep`. -/
def SysTrace (t : Nat → ReaderData) : Prop :=
  ∀ n, t (n + 1) = t n ∨ SysStep (t n) (t (n + 1))

lemma eventReachable_len (s : EventState) (h : EventReachable s) :
    s.readings.length = s.signals + (if s.pending then 1 else 0) := by
  induction h with
  | refl => rfl
  | tail hab hbc ih =>
    cases hbc with
    | store r s1 hp =>
      rw [hp] at ih
      simp at ih
      simp [List.length_append, ih]
    | emit s1 hp =>
      rw [hp] at ih
      simp at ih
      simp [ih]

lemma sysStep_into_stopped {rd rd1 : ReaderData} (h : SysStep rd rd1)
    (h1 : rd1.thread_status = ThreadStatus.Stopped) :
    rd.thread_status = ThreadStatus.Stopping ∨ rd.thread_status = ThreadStatus.Stopped := by
  cases h with
  | ctrlStop rd rd1 resp heq =>
    simp only [stop_thread, if_true, CtrlOutcome.ret.injEq, Prod.mk.injEq] at heq
    obtain ⟨h2, h3⟩ := heq
    rw [← h2] at h1
    simp at h1
  | sampler o rd rd1 c heq =>
    cases o with
    | ioError =>
      simp only [samplerCycle, reader_get_value, Prod.mk.injEq] at heq
      obtain ⟨h2, h3⟩ := heq
      rw [← h2] at h1
      exact Or.inr h1
    | noData =>
      simp only [samplerCycle, reader_get_value, Prod.mk.injEq] at heq
      obtain ⟨h2, h3⟩ := heq
      rw [← h2] at h1
      exact Or.inr h1
    | badTelegram =>
      simp only [samplerCycle, reader_get_value, Prod.mk.injEq] at heq
      obtain ⟨h2, h3⟩ := heq
      rw [← h2] at h1
      simp at h1
    | badState =>
      simp only [samplerCycle, reader_get_value, Prod.mk.injEq] at heq
      obtain ⟨h2, h3⟩ := heq
      rw [← h2] at h1
      simp at h1
    | good s0 =>
      simp only [samplerCycle, reader_get_value] at heq
      split at heq
      · rename_i h2
        exact Or.inl h2
      · obtain ⟨h2, h3⟩ := Prod.mk.injEq .. ▸ heq
        rw [← h2] at h1
        exact Or.inr h1
  | ctrlStart sp rd rd1 resp heq =>
    by_cases hh : rd.thread_handle.isSome
    · simp only [start_thread, hh, if_true, Prod.mk.injEq] at heq
      obtain ⟨h2, h3⟩ := heq
      rw [← h2] at h1
      exact Or.inr h1
    · have hh2 : rd.thread_handle.isSome = false := by simpa using hh
      cases sp with
      | ok =>
        simp only [start_thread, hh2, spawn_dsmr_thread, Bool.false_eq_true, if_false,
          Prod.mk.injEq] at heq
        obtain ⟨h2, h3⟩ := heq
        rw [← h2] at h1
        simp at h1
      | err e =>
        simp only [start_thread, hh2, spawn_dsmr_thread, Bool.false_eq_true, if_false,
          Prod.mk.injEq] at heq
        obtain ⟨h2, h3⟩ := heq
        rw [← h2] at h1
        simp at h1

lemma applyCall_mem_iff (reg : List SocketAddr) (s : Finset SocketAddr)
    (h : ∀ a, a ∈ reg ↔ a ∈ s) (c : RegCall) (a : SocketAddr) :
    a ∈ applyCall reg c ↔ a ∈ applySetCall s c := by
  cases c with
  | register b =>
    by_cases hb : b ∈ reg
    · have hb1 : reg.contains b = true := List.elem_eq_true_of_mem hb
      simp only [applyCall, AppData.register_client, if_pos rfl, hb1, if_true,
        applySetCall, Finset.mem_insert]
      constructor
      · intro ha
        exact Or.inr ((h a).mp ha)
      · rintro (rfl | ha)
        · exact hb
        · exact (h a).mpr ha
    · have hb1 : reg.contains b = false := by
        rcases Bool.eq_false_or_eq_true (reg.contains b) with h0 | h0
        · exact absurd (List.mem_of_elem_eq_true h0) hb
        · exact h0
      simp only [applyCall, AppData.register_client, hb1, applySetCall]
      simp only [Bool.false_eq_true, if_false, if_true, List.mem_append,
        List.mem_singleton, Finset.mem_insert, h a]
      tauto
  | unregister b =>
    simp only [applyCall, AppData.unregister_client, if_true, applySetCall,
      List.mem_filter, Finset.mem_erase, decide_eq_true_eq, h a]
    tauto

lemma foldl_calls_mem (calls : List RegCall) :
    ∀ (reg : List SocketAddr) (s : Finset SocketAddr),
      (∀ a, a ∈ reg ↔ a ∈ s) →
      ∀ a, a ∈ List.foldl applyCall reg calls ↔ a ∈ List.foldl applySetCall s calls := by
  induction calls with
  | nil =>
    intro reg s h a
    simpa using h a
  | cons c rest ih =>
    intro reg s h a
    simp only [List.foldl_cons]
    exact ih (applyCall reg c) (applySetCall s c) (fun x => applyCall_mem_iff reg s h c x) a

lemma send_loop_map_fst (f : SocketAddr → Bool) (l : List SocketAddr) :
    (send_loop f l).map Prod.fst = l := by
  induction l with
  | nil => rfl
  | cons a rest ih => simp [send_loop, ih]

/-- C2 — counterexample. The claim says `stop()` on a `Stopped` system is a
no-op leaving the status at `Stopped`; but `stop_thread` on the `Stopped`
initial state returns success with the status moved to `Stopping`, which
differs from `Stopped`. -/
theorem stop_on_stopped_moves_to_stopping :
    stop_thread true
        { dsmr_state := 0, thread_status := ThreadStatus.Stopped, thread_handle := none }
      = CtrlOutcome.ret
          ({ dsmr_state := 0, thread_status := ThreadStatus.Stopping, thread_handle := none },
            { status := HttpStatusCode.ok, body := bodyStopOk })
    ∧ ThreadStatus.Stopping ≠ ThreadStatus.Stopped :=
  ⟨rfl, by decide⟩

/-- C2 — amended. With the lock available, `stop_thread` always returns the
200 success response and unconditionally sets the status to `Stopping`,
whatever the current status was; in particular a stop on `Running` or
`Failed` sets `Stopping`, and a stop on a `Stopped` system also moves the
status to `Stopping` rather than leaving it unchanged. -/
theorem stop_thread_always_sets_stopping (rd : ReaderData) :
    stop_thread true rd
      = CtrlOutcome.ret ({ rd with thread_status := ThreadStatus.Stopping },
          { status := HttpStatusCode.ok, body := bodyStopOk }) := rfl

/-- C4 — counterexample. The claim says every device IO failure during
acquisition sets the status to `Failed`; but when a byte read fails
(`PortOutcome.ioError`) while the status is `Running`, the sampler thread
panics through `.expect` and the shared state is left untouched, with the
status still `Running`, not `Failed`. -/
theorem sampler_io_error_panics_without_failed :
    samplerCycle PortOutcome.ioError
        { dsmr_state := 0, thread_status := ThreadStatus.Running, thread_handle := none }
      = ({ dsmr_state := 0, thread_status := ThreadStatus.Running, thread_handle := none },
          LoopCtl.panicked panicByteRead)
    ∧ ThreadStatus.Running ≠ ThreadStatus.Failed :=
  ⟨rfl, by decide⟩

/-- C4 — amended. A decode failure (telegram or state conversion) makes
the sampler set the status to `Failed` and break out of the loop
immediately, with no retry; a byte-level device IO failure or an empty
reader instead panics the sampler thread through `.expect`, terminating
the sampler task without touching the shared state (the status keeps its
previous value). In both cases the outcome is a loop-control value of the
sampler task alone: the panic unwinds only the spawned thread, never the
process. -/
theorem sampler_failure_modes (rd : ReaderData) :
    samplerCycle PortOutcome.badTelegram rd
        = ({ rd with thread_status := ThreadStatus.Failed }, LoopCtl.breakLoop)
    ∧ samplerCycle PortOutcome.badState rd
        = ({ rd with thread_status := ThreadStatus.Failed }, LoopCtl.breakLoop)
    ∧ samplerCycle PortOutcome.ioError rd = (rd, LoopCtl.panicked panicByteRead)
    ∧ samplerCycle PortOutcome.noData rd = (rd, LoopCtl.panicked panicNoReaderData) :=
  ⟨rfl, rfl, rfl, rfl⟩

/-- C7 — counterexample. The claim says every control-plane operation
reports a lock-acquisition failure to its caller; but `stop_thread` on a
poisoned lock panics through `.expect` instead of returning a response. -/
theorem stop_thread_poisoned_panics :
    stop_thread false ReaderData.init = CtrlOutcome.panicked panicStopLock := rfl

/-- C7 — amended. The registry operations (`register_client`,
`unregister_client`, `AppData::list_clients`) report a lock-acquisition
failure to their caller as an error value; the operations on the reader
state lock (`stop_thread`, `get_state`) instead panic through `.expect`
when the lock is poisoned, rather than reporting the failure. -/
theorem lock_failure_reported_or_panic (reg : List SocketAddr) (a : SocketAddr)
    (rd : ReaderData) :
    AppData.register_client false reg a = Except.error errRegisterLock
    ∧ AppData.unregister_client false reg a = Except.error errUnregisterLock
    ∧ AppData.list_clients false reg = Except.error errListLock
    ∧ stop_thread false rd = CtrlOutcome.panicked panicStopLock
    ∧ get_state false rd = CtrlOutcome.panicked panicReadLock :=
  ⟨rfl, rfl, rfl, rfl, rfl⟩

/-- C8 — confirmed. In one woken fan-out cycle whose snapshots succeed,
whatever the per-endpoint send outcomes are, every address of the
snapshotted register gets exactly one send attempt, in order, and the task
continues its loop; a send failure is only an ignored `Result` inside the
iteration, never an operation failure. -/
theorem fanout_attempts_every_endpoint (addrs : List SocketAddr)
    (f : SocketAddr → Bool) (r : DsmrState) :
    ((fanout_cycle ⟨true, true, r, true, addrs, f⟩).1.map Prod.fst = addrs)
    ∧ (fanout_cycle ⟨true, true, r, true, addrs, f⟩).2 = FanoutNext.continueLoop := by
  refine ⟨?_, rfl⟩
  simp [fanout_cycle, serializeVec, send_loop_map_fst]

/-- C10 — confirmed. When serialization of the snapshotted reading fails,
the fan-out cycle sends zero datagrams whatever the register contains, and
silently continues to the next wait. -/
theorem fanout_serialization_failure_sends_nothing (addrs : List SocketAddr)
    (f : SocketAddr → Bool) (r : DsmrState) :
    fanout_cycle ⟨true, true, r, false, addrs, f⟩ = ([], FanoutNext.continueLoop) := rfl

/-- C9 — the `/list` body after registering `10.0.0.1:7` and `10.0.0.2:8`:
`String::extend` concatenates the entries with no separator, so the body
is the header followed by `10.0.0.1:710.0.0.2:8`, not the newline-joined
list the specification describes. -/
theorem list_clients_concatenates_without_separator :
    (list_clients true
        [{ ip := "10.0.0.1", port := 7 }, { ip := "10.0.0.2", port := 8 }]).body
      = "Currently registered clients are\n10.0.0.1:710.0.0.2:8"
    ∧ (list_clients true
        [{ ip := "10.0.0.1", port := 7 }, { ip := "10.0.0.2", port := 8 }]).body
      ≠ "Currently registered clients are\n10.0.0.1:7\n10.0.0.2:8" :=
  ⟨rfl, by decide⟩

/-- C6 — confirmed. For every finite sequence of register/unregister calls
from the empty registry, the final registry membership is exactly the
membership of the Finset obtained by applying each call in order as a set
operation; `register_client` on a present endpoint is rejected with the
`AlreadyRegistered` error (the register is returned to unchanged before
any mutation), and `unregister_client` on an absent endpoint succeeds and
leaves the register unchanged. -/
theorem registry_sequence_set_semantics :
    (∀ (calls : List RegCall) (a : SocketAddr),
        a ∈ runCalls calls ↔ a ∈ runSetCalls calls)
    ∧ (∀ (reg : List SocketAddr) (a : SocketAddr), a ∈ reg →
        AppData.register_client true reg a = Except.error errAlreadyRegistered)
    ∧ (∀ (reg : List SocketAddr) (a : SocketAddr), a ∉ reg →
        AppData.unregister_client true reg a = Except.ok reg) := by
  refine ⟨?_, ?_, ?_⟩
  · intro calls a
    exact foldl_calls_mem calls [] ∅ (by simp) a
  · intro reg a ha
    have hc : reg.contains a = true := List.elem_eq_true_of_mem ha
    simp [AppData.register_client, hc, ha]
  · intro reg a ha
    simp only [AppData.unregister_client, if_true, Except.ok.injEq, List.filter_eq_self,
      decide_eq_true_eq]
    intro x hx he
    exact ha (he ▸ hx)

/-- C6 — witness: registering an address already present in a one-element
register is rejected; unregistering an absent address returns the register
unchanged; and a fresh register call agrees with the set semantics. -/
theorem registry_sequence_set_semantics_witness :
    AppData.register_client true [⟨"10.0.0.1", 7⟩] ⟨"10.0.0.1", 7⟩
        = Except.error errAlreadyRegistered
    ∧ AppData.unregister_client true [⟨"10.0.0.1", 7⟩] ⟨"10.0.0.2", 8⟩
        = Except.ok [⟨"10.0.0.1", 7⟩]
    ∧ (⟨"10.0.0.2", 8⟩ ∈ runCalls [RegCall.register ⟨"10.0.0.2", 8⟩]
        ↔ ⟨"10.0.0.2", 8⟩ ∈ runSetCalls [RegCall.register ⟨"10.0.0.2", 8⟩]) := by
  refine ⟨?_, ?_, ?_⟩
  · exact registry_sequence_set_semantics.2.1 _ _ (by decide)
  · exact registry_sequence_set_semantics.2.2 _ _ (by decide)
  · exact registry_sequence_set_semantics.1 _ _

/-- C5 — confirmed. `start_thread` rejects with the existing-thread error
whenever a sampler handle is attached, leaving the state unchanged; from a
state with no handle, a successful spawn attaches the handle, sets the
status to `Running` and answers 200 immediately, and a second start on the
resulting state is rejected; a failed spawn reports the spawn error to the
caller and sets the status to `Failed`. -/
theorem start_thread_spec (sp : SpawnResult) (rd : ReaderData) :
    (rd.thread_handle.isSome = true →
        start_thread sp rd
          = (rd, { status := HttpStatusCode.internalServerError, body := bodyStartExisting }))
    ∧ (rd.thread_handle = none →
        start_thread SpawnResult.ok rd
            = ({ rd with thread_status := ThreadStatus.Running, thread_handle := some () },
                { status := HttpStatusCode.ok, body := bodyStartOk })
          ∧ start_thread sp
                { rd with thread_status := ThreadStatus.Running, thread_handle := some () }
            = ({ rd with thread_status := ThreadStatus.Running, thread_handle := some () },
                { status := HttpStatusCode.internalServerError, body := bodyStartExisting }))
    ∧ (∀ e, rd.thread_handle = none →
        start_thread (SpawnResult.err e) rd
          = ({ rd with thread_status := ThreadStatus.Failed },
              { status := HttpStatusCode.internalServerError,
                body := bodyStartFailedPrefix ++ e })) := by
  refine ⟨?_, ?_, ?_⟩
  · intro h
    simp [start_thread, h]
  · intro h
    constructor
    · simp [start_thread, h, spawn_dsmr_thread]
    · simp [start_thread]
  · intro e h
    simp [start_thread, h, spawn_dsmr_thread]

/-- C5 — witness: from the initial state, a first `start` with a
successful spawn answers 200 and attaches the handle; an immediately
following `start` is rejected with the existing-thread error. -/
theorem start_thread_spec_witness :
    start_thread SpawnResult.ok ReaderData.init
        = ({ dsmr_state := 0, thread_status := ThreadStatus.Running, thread_handle := some () },
            { status := HttpStatusCode.ok, body := bodyStartOk })
    ∧ start_thread SpawnResult.ok
          { dsmr_state := 0, thread_status := ThreadStatus.Running, thread_handle := some () }
        = ({ dsmr_state := 0, thread_status := ThreadStatus.Running, thread_handle := some () },
            { status := HttpStatusCode.internalServerError, body := bodyStartExisting }) := by
  have h := (start_thread_spec SpawnResult.ok ReaderData.init).2.1 rfl
  exact ⟨h.1, h.2⟩

/-- C1 — confirmed. In every state reachable under the write-then-signal
protocol of the sampler (`store` the decoded reading into the shared
state, then `emit` the EventSignal notification), a waiter woken by the
`k`-th notification that then snapshots the shared state observes a
reading whose position in the append-only history is at least `k - 1` —
the reading whose store triggered that notification (position `k - 1`) or
a later one, never an older one. -/
theorem waiter_observes_triggering_reading (s : EventState) (hs : EventReachable s)
    (k : Nat) (hk1 : 1 ≤ k) (hk : k ≤ s.signals) :
    ∃ j, k - 1 ≤ j ∧ s.readings.get? j = some (snapshot_reading s) := by
  have hlen := eventReachable_len s hs
  have hge : s.signals ≤ s.readings.length := by
    by_cases hp : s.pending <;> simp [hp] at hlen <;> omega
  have hpos : 0 < s.readings.length := by omega
  refine ⟨s.readings.length - 1, by omega, ?_⟩
  have hne : s.readings ≠ [] := List.ne_nil_of_length_pos hpos
  obtain ⟨x, hx⟩ : ∃ x, s.readings.getLast? = some x := by
    cases hl : s.readings.getLast? with
    | none => exact absurd (List.getLast?_eq_none_iff.mp hl) hne
    | some x => exact ⟨x, rfl⟩
  rw [List.get?_eq_getElem?, ← List.getLast?_eq_getElem?, hx]
  rw [snapshot_reading, List.getLastD_eq_getLast?, hx, Option.getD_some]

/-- C1 — witness: after one store of reading `5` followed by its
notification, a waiter woken by notification `1` snapshots reading `5`,
which sits at position `0 = 1 - 1` of the history. -/
theorem waiter_observes_triggering_reading_witness :
    ∃ j, 1 - 1 ≤ j ∧ ([5] : List DsmrState).get? j
      = some (snapshot_reading { readings := [5], signals := 1, pending := false }) := by
  have hreach : EventReachable { readings := [5], signals := 1, pending := false } :=
    Relation.ReflTransGen.tail
      (Relation.ReflTransGen.tail Relation.ReflTransGen.refl
        (SamplerEvent.store 5 EventState.start rfl))
      (SamplerEvent.emit _ rfl)
  exact waiter_observes_triggering_reading _ hreach 1 (by decide) (by decide)

/-- C3 — confirmed. Along any observation of the shared state in which
each instant stutters or performs one embedded system step (a `stop`
request, a sampler iteration, or a `start` request), whenever the status
is `Running` at instant `i` and `Stopped` at a later instant `j`, there is
a strictly intermediate instant at which the status is `Stopping`: the
only step that produces `Stopped` is the sampler acknowledging a
previously requested `Stopping`, so no direct `Running`-to-`Stopped`
transition is ever observed. -/
theorem running_to_stopped_passes_stopping (t : Nat → ReaderData) (ht : SysTrace t)
    (i j : Nat) (hij : i < j) (hi : (t i).thread_status = ThreadStatus.Running)
    (hj : (t j).thread_status = ThreadStatus.Stopped) :
    ∃ k, i < k ∧ k < j ∧ (t k).thread_status = ThreadStatus.Stopping := by
  revert hij hj
  induction j using Nat.strong_induction_on with
  | _ j ih =>
    intro hij hj
    obtain ⟨m, rfl⟩ : ∃ m, j = m + 1 := ⟨j - 1, by omega⟩
    rcases ht m with hstut | hstep
    · have hjm : (t m).thread_status = ThreadStatus.Stopped := by
        rw [← hstut]
        exact hj
      have him : i ≠ m := by
        intro he
        rw [← he, hi] at hjm
        exact absurd hjm (by decide)
      obtain ⟨k, hk1, hk2, hk3⟩ := ih m (by omega) (by omega) hjm
      exact ⟨k, hk1, by omega, hk3⟩
    · rcases sysStep_into_stopped hstep hj with hstop | hstopped
      · have him : i ≠ m := by
          intro he
          rw [← he, hi] at hstop
          exact absurd hstop (by decide)
        exact ⟨m, by omega, by omega, hstop⟩
      · have him : i ≠ m := by
          intro he
          rw [← he, hi] at hstopped
          exact absurd hstopped (by decide)
        obtain ⟨k, hk1, hk2, hk3⟩ := ih m (by omega) (by omega) hstopped
        exact ⟨k, hk1, by omega, hk3⟩

/-- C3 — witness: on the concrete observation Running, then Stopping (a
stop request), then Stopped (the sampler acknowledging), the intermediate
instant `1` carries `Stopping`. -/
theorem running_to_stopped_passes_stopping_witness :
    ∃ k, 0 < k ∧ k < 2 ∧
      ((fun n => match n with
        | 0 => { dsmr_state := 0, thread_status := ThreadStatus.Running,
                 thread_handle := none }
        | 1 => { dsmr_state := 0, thread_status := ThreadStatus.Stopping,
                 thread_handle := none }
        | _ + 2 => { dsmr_state := 0, thread_status := ThreadStatus.Stopped,
                     thread_handle := none } : Nat → ReaderData) k).thread_status
        = ThreadStatus.Stopping := by
  refine running_to_stopped_passes_stopping _ ?_ 0 2 (by decide) rfl rfl
  intro n
  match n with
  | 0 => exact Or.inr (SysStep.ctrlStop _ _ ⟨HttpStatusCode.ok, bodyStopOk⟩ rfl)
  | 1 => exact Or.inr (SysStep.sampler (PortOutcome.good 0) _ _ LoopCtl.breakLoop rfl)
  | n + 2 => exact Or.inl rfl

end Dsmrd
